import Mathlib

/-!
Shallow embedding of the Avalon game server (backend/src/game/engine.ts,
backend/src/game/service.ts, backend/src/game/serializers.ts,
backend/src/game/memoryRepository.ts and backend/src/index.ts).

JavaScript objects used as string-keyed maps (`votes`, `questActions`,
the repository `Map`, `processedActions`, `disconnectedAt`, `sessions`)
are embedded as association lists with overwrite-in-place `set`,
first-match `get` and filtering `delete`, matching JS insertion-order
semantics.  Wall-clock reads (`Date.now()`) are passed in as an explicit
`t : Nat` argument.  Functions that `throw` return `Except String`.
-/

namespace Avalon

/-- Association-list read: first entry whose key matches, mirroring JS
`obj[k]` / `Map.get`. -/
def alistGet {α : Type} (l : List (String × α)) (k : String) : Option α :=
  (l.find? (fun e => e.1 == k)).map (·.2)

/-- Association-list write: overwrite an existing key in place, else append,
mirroring JS `{ ...obj, [k]: v }` / `Map.set`. -/
def alistSet {α : Type} : List (String × α) → String → α → List (String × α)
  | [], k, v => [(k, v)]
  | e :: rest, k, v => if e.1 == k then (k, v) :: rest else e :: alistSet rest k v

/-- Association-list delete, mirroring JS `Map.delete`. -/
def alistErase {α : Type} (l : List (String × α)) (k : String) : List (String × α) :=
  l.filter (fun e => !(e.1 == k))

inductive GamePhase
  | lobby
  | role_assignment
  | team_proposal
  | voting
  | quest
  | endgame
deriving DecidableEq, Repr

inductive PlayerRole
  | unassigned
  | resistance
  | spy
deriving DecidableEq, Repr

/-- The `'resistance' | 'spy'` union used for `winner` and `hasTeamWon`. -/
inductive TeamSide
  | resistance
  | spy
deriving DecidableEq, Repr

inductive VoteChoice
  | approve
  | reject
deriving DecidableEq, Repr

inductive QuestAction
  | success
  | fail
deriving DecidableEq, Repr

structure Player where
  id : String
  name : String
  role : PlayerRole
  seat : Nat
  connected : Bool
deriving DecidableEq, Repr

structure GameHostInput where
  id : String
  name : String
deriving DecidableEq, Repr

structure JoinPlayerInput where
  id : String
  name : String
deriving DecidableEq, Repr

structure QuestResolution where
  questNumber : Nat
  team : List String
  approvals : Nat
  rejections : Nat
  succeeds : Bool
  failCount : Nat
deriving DecidableEq, Repr

structure GameState where
  id : String
  phase : GamePhase
  players : List Player
  hostId : String
  round : Nat
  turn : Nat
  leaderSeat : Nat
  proposedTeam : List String
  votes : List (String × VoteChoice)
  questActions : List (String × QuestAction)
  voteWindowEndsAt : Option Nat
  questWindowEndsAt : Option Nat
  failedProposalCount : Nat
  questResults : List QuestResolution
  winner : Option TeamSide
  createdAt : Nat
  updatedAt : Nat
deriving DecidableEq, Repr

structure ProposeTeamInput where
  leaderId : String
  teamPlayerIds : List String
deriving DecidableEq, Repr

structure VoteInput where
  playerId : String
  vote : VoteChoice
deriving DecidableEq, Repr

structure QuestActionInput where
  playerId : String
  action : QuestAction
deriving DecidableEq, Repr

structure GameRules where
  minPlayers : Nat
  maxPlayers : Nat
  voteWindowMs : Nat
  questWindowMs : Nat
  teamSizesByPlayerCount : Nat → Option (List Nat)

/-- The `DEFAULT_RULES` constant of engine.ts. -/
def DEFAULT_RULES : GameRules where
  minPlayers := 5
  maxPlayers := 10
  voteWindowMs := 30000
  questWindowMs := 45000
  teamSizesByPlayerCount := fun n =>
    match n with
    | 5 => some [2, 3, 2, 3, 3]
    | 6 => some [2, 3, 4, 3, 4]
    | 7 => some [2, 3, 3, 4, 4]
    | 8 => some [3, 4, 4, 5, 5]
    | 9 => some [3, 4, 4, 5, 5]
    | 10 => some [3, 4, 4, 5, 5]
    | _ => none

/-- `getTeamSizeForRound` of engine.ts.  The JS `if (!size)` check is also
false for a zero entry, so a zero table entry throws as well. -/
def getTeamSizeForRound (game : GameState) (rules : GameRules) : Except String Nat :=
  match rules.teamSizesByPlayerCount game.players.length with
  | none => .error "Unsupported player count"
  | some sizes =>
    match sizes.get? (game.round - 1) with
    | none => .error "Invalid round"
    | some size => if size = 0 then .error "Invalid round" else .ok size

/-- `findPlayer` of engine.ts. -/
def findPlayer (game : GameState) (playerId : String) : Except String Player :=
  match game.players.find? (fun candidate => candidate.id == playerId) with
  | some player => .ok player
  | none => .error "Player is not part of this game"

/-- `getLeader` of engine.ts. -/
def getLeader (game : GameState) : Except String Player :=
  match game.players.find? (fun player => player.seat == game.leaderSeat) with
  | some leader => .ok leader
  | none => .error "Leader seat is invalid for current player list"

/-- `rotateLeader` of engine.ts. -/
def rotateLeader (game : GameState) : Nat :=
  if game.leaderSeat + 1 > game.players.length then 1 else game.leaderSeat + 1

/-- `hasTeamWon` of engine.ts. -/
def hasTeamWon (game : GameState) (team : TeamSide) : Bool :=
  match team with
  | .resistance => 3 ≤ (game.questResults.filter (fun result => result.succeeds)).length
  | .spy => 3 ≤ (game.questResults.filter (fun result => !result.succeeds)).length

/-- `withTimestamp` of engine.ts, with the wall clock passed explicitly. -/
def withTimestamp (t : Nat) (game : GameState) : GameState :=
  { game with updatedAt := t }

/-- `createGame` of engine.ts; the random id string is passed in as `gid`. -/
def createGame (gid : String) (host : GameHostInput) (t : Nat) : GameState where
  id := gid
  phase := .lobby
  players := [{ id := host.id, name := host.name, role := .unassigned, seat := 1, connected := true }]
  hostId := host.id
  round := 1
  turn := 1
  leaderSeat := 1
  proposedTeam := []
  votes := []
  questActions := []
  voteWindowEndsAt := none
  questWindowEndsAt := none
  failedProposalCount := 0
  questResults := []
  winner := none
  createdAt := t
  updatedAt := t

/-- `joinGame` of engine.ts. -/
def joinGame (game : GameState) (player : JoinPlayerInput) (t : Nat)
    (rules : GameRules) : Except String GameState :=
  if game.phase ≠ .lobby then
    .error "Players can only join while in lobby phase"
  else if rules.maxPlayers ≤ game.players.length then
    .error "Lobby is full"
  else if game.players.any (fun existing => existing.id == player.id) then
    .error "Player has already joined"
  else
    .ok (withTimestamp t
      { game with
        players := game.players ++
          [{ id := player.id, name := player.name, role := .unassigned,
             seat := game.players.length + 1, connected := true }] })

/-- `proposeTeam` of engine.ts.  The JS `Set`-size duplicate check is
embedded through `List.eraseDups`. -/
def proposeTeam (game : GameState) (input : ProposeTeamInput) (t : Nat)
    (rules : GameRules) : Except String GameState :=
  if game.phase ≠ .team_proposal then
    .error "Team proposals are only allowed during team_proposal phase"
  else
    match getLeader game with
    | .error e => .error e
    | .ok leader =>
      if leader.id ≠ input.leaderId then
        .error "Only the current leader may propose a team"
      else
        match getTeamSizeForRound game rules with
        | .error e => .error e
        | .ok requiredTeamSize =>
          if input.teamPlayerIds.length ≠ requiredTeamSize then
            .error "Team size does not match the requirement for this round"
          else if input.teamPlayerIds.eraseDups.length ≠ input.teamPlayerIds.length then
            .error "Team proposal cannot include duplicate players"
          else if !(input.teamPlayerIds.all
              (fun playerId => game.players.any (fun p => p.id == playerId))) then
            .error "Player is not part of this game"
          else
            .ok (withTimestamp t
              { game with
                phase := .voting
                proposedTeam := input.teamPlayerIds
                votes := []
                voteWindowEndsAt := some (t + rules.voteWindowMs) })

/-- `submitVote` of engine.ts. -/
def submitVote (game : GameState) (input : VoteInput) (t : Nat) :
    Except String GameState :=
  if game.phase ≠ .voting then
    .error "Votes can only be submitted during voting phase"
  else
    match findPlayer game input.playerId with
    | .error e => .error e
    | .ok _ =>
      if (match game.voteWindowEndsAt with
          | some deadline => decide (deadline < t)
          | none => false) then
        .error "Voting window has already closed"
      else if (alistGet game.votes input.playerId).isSome then
        .error "Player already submitted a vote"
      else
        .ok (withTimestamp t
          { game with votes := alistSet game.votes input.playerId input.vote })

/-- `submitQuestAction` of engine.ts. -/
def submitQuestAction (game : GameState) (input : QuestActionInput) (t : Nat) :
    Except String GameState :=
  if game.phase ≠ .quest then
    .error "Quest cards can only be submitted during quest phase"
  else if (match game.questWindowEndsAt with
      | some deadline => decide (deadline < t)
      | none => false) then
    .error "Quest submission window has already closed"
  else if !(game.proposedTeam.contains input.playerId) then
    .error "Only players on the selected team can submit quest actions"
  else if (alistGet game.questActions input.playerId).isSome then
    .error "Player already submitted a quest card"
  else
    .ok (withTimestamp t
      { game with questActions := alistSet game.questActions input.playerId input.action })

/-- The `questResult` record built inline by the `quest` branch of
`advancePhase` in engine.ts. -/
def questResolutionOf (game : GameState) : QuestResolution where
  questNumber := game.round
  team := game.proposedTeam
  approvals := (game.votes.filter (fun vote => vote.2 == VoteChoice.approve)).length
  rejections :=
    game.players.length - (game.votes.filter (fun vote => vote.2 == VoteChoice.approve)).length
  succeeds := (game.questActions.filter (fun a => a.2 == QuestAction.fail)).length = 0
  failCount := (game.questActions.filter (fun a => a.2 == QuestAction.fail)).length

/-- The intermediate post-quest state built by the `quest` branch of
`advancePhase` in engine.ts, before the win checks. -/
def questIntermediate (game : GameState) (t : Nat) : GameState :=
  withTimestamp t
    { game with
      questResults := game.questResults ++ [questResolutionOf game]
      round := game.round + 1
      turn := game.turn + 1
      phase := .team_proposal
      leaderSeat := rotateLeader game
      proposedTeam := []
      votes := []
      questActions := []
      voteWindowEndsAt := none
      questWindowEndsAt := none
      failedProposalCount := 0 }

/-- `advancePhase` of engine.ts. -/
def advancePhase (game : GameState) (t : Nat) (rules : GameRules) :
    Except String GameState :=
  match game.phase with
  | .lobby =>
    if game.players.length < rules.minPlayers then
      .error "Need at least the minimum number of players to start"
    else
      .ok (withTimestamp t { game with phase := .role_assignment })
  | .role_assignment =>
    .ok (withTimestamp t { game with phase := .team_proposal })
  | .voting =>
    if game.votes.length ≠ game.players.length then
      .error "Cannot advance voting phase until all players vote"
    else
      let approvals := (game.votes.filter (fun vote => vote.2 == VoteChoice.approve)).length
      let rejections := game.players.length - approvals
      if rejections < approvals then
        .ok (withTimestamp t
          { game with
            phase := .quest
            questActions := []
            questWindowEndsAt := some (t + rules.questWindowMs)
            voteWindowEndsAt := none })
      else
        let failedProposalCount := game.failedProposalCount + 1
        if 5 ≤ failedProposalCount then
          .ok (withTimestamp t
            { game with
              phase := .endgame
              winner := some .spy
              failedProposalCount := failedProposalCount
              voteWindowEndsAt := none })
        else
          .ok (withTimestamp t
            { game with
              phase := .team_proposal
              turn := game.turn + 1
              leaderSeat := rotateLeader game
              proposedTeam := []
              votes := []
              voteWindowEndsAt := none
              failedProposalCount := failedProposalCount })
  | .quest =>
    if game.questActions.length ≠ game.proposedTeam.length then
      .error "Cannot resolve quest until all selected players submit actions"
    else
      let intermediateGame := questIntermediate game t
      if hasTeamWon intermediateGame .resistance then
        .ok (withTimestamp t { intermediateGame with phase := .endgame, winner := some .resistance })
      else if hasTeamWon intermediateGame .spy || decide (5 < intermediateGame.round) then
        .ok (withTimestamp t { intermediateGame with phase := .endgame, winner := some .spy })
      else
        .ok intermediateGame
  | .team_proposal => .error "Cannot auto-advance from phase team_proposal"
  | .endgame => .error "Cannot auto-advance from phase endgame"

/-- The role-free player shape used by `toPublicState` in serializers.ts
(the `LobbyPlayerSchema` wire shape: no `role` field exists here). -/
structure PublicPlayer where
  id : String
  name : String
  seat : Nat
  connected : Bool
deriving DecidableEq, Repr

/-- The `GameStateSchema` wire shape produced by `toPublicState`. -/
structure PublicGameState where
  id : String
  phase : GamePhase
  hostId : String
  round : Nat
  turn : Nat
  leaderSeat : Nat
  proposedTeam : List String
  votes : List (String × VoteChoice)
  questActions : List (String × QuestAction)
  voteWindowEndsAt : Option Nat
  questWindowEndsAt : Option Nat
  failedProposalCount : Nat
  questResults : List QuestResolution
  winner : Option TeamSide
  createdAt : Nat
  updatedAt : Nat
  joinCode : String
  players : List PublicPlayer
deriving DecidableEq, Repr

structure PrivateState where
  role : PlayerRole
  knownSpies : List String
deriving DecidableEq, Repr

/-- The `PlayerGameStateSchema` wire shape produced by `toPlayerState`. -/
structure PlayerGameState where
  publicState : PublicGameState
  privateState : PrivateState
deriving DecidableEq, Repr

/-- `toPublicPlayers` of serializers.ts. -/
def toPublicPlayers (game : GameState) : List PublicPlayer :=
  game.players.map (fun player =>
    { id := player.id, name := player.name, seat := player.seat, connected := player.connected })

/-- `toPublicState` of serializers.ts. -/
def toPublicState (game : GameState) (joinCode : String) : PublicGameState where
  id := game.id
  phase := game.phase
  hostId := game.hostId
  round := game.round
  turn := game.turn
  leaderSeat := game.leaderSeat
  proposedTeam := game.proposedTeam
  votes := game.votes
  questActions := game.questActions
  voteWindowEndsAt := game.voteWindowEndsAt
  questWindowEndsAt := game.questWindowEndsAt
  failedProposalCount := game.failedProposalCount
  questResults := game.questResults
  winner := game.winner
  createdAt := game.createdAt
  updatedAt := game.updatedAt
  joinCode := joinCode
  players := toPublicPlayers game

/-- `toPlayerState` of serializers.ts. -/
def toPlayerState (game : GameState) (playerId : String) (joinCode : String) :
    Except String PlayerGameState :=
  match game.players.find? (fun candidate => candidate.id == playerId) with
  | none => .error "Player was not found in game"
  | some player =>
    let knownSpies :=
      if player.role = .spy then
        (game.players.filter (fun candidate => candidate.role == PlayerRole.spy)).map (·.id)
      else
        []
    .ok { publicState := toPublicState game joinCode
          privateState := { role := player.role, knownSpies := knownSpies } }

/-- The in-memory repository of memoryRepository.ts: a JS `Map` from game id
to state, embedded as an association list. -/
abbrev Repo := List (String × GameState)

/-- `InMemoryGameRepository.getById`. -/
def repoGetById (repo : Repo) (gameId : String) : Option GameState :=
  alistGet repo gameId

/-- `InMemoryGameRepository.save` (`games.set(game.id, game)`). -/
def repoSave (repo : Repo) (game : GameState) : Repo :=
  alistSet repo game.id game

/-- `getRequiredGame` of service.ts. -/
def getRequiredGame (repo : Repo) (gameId : String) : Except String GameState :=
  match repoGetById repo gameId with
  | some game => .ok game
  | none => .error "Game was not found"

/-- The shared shape of every non-create service.ts operation: read the
stored state, run the pure engine transition, save only on success.  The
repository component of the result is the post-call repository: unchanged
when the operation throws. -/
def serviceStep (repo : Repo) (gameId : String)
    (transition : GameState → Except String GameState) :
    Except String GameState × Repo :=
  match getRequiredGame repo gameId with
  | .error e => (.error e, repo)
  | .ok game =>
    match transition game with
    | .error e => (.error e, repo)
    | .ok nextState => (.ok nextState, repoSave repo nextState)

/-- One inbound state-machine command as dispatched by the service layer
(service.ts), carrying the wall-clock instant of the call. -/
inductive ServiceCommand
  | join (gameId : String) (player : JoinPlayerInput)
  | propose (gameId : String) (input : ProposeTeamInput)
  | vote (gameId : String) (input : VoteInput)
  | questAct (gameId : String) (input : QuestActionInput)
  | advance (gameId : String)
deriving DecidableEq, Repr

/-- The five repository-backed operations of service.ts (`joinGame`,
`proposeTeam`, `submitVote`, `submitQuestAction`, `advancePhase`), all with
the engine's `DEFAULT_RULES` default argument. -/
def applyService (cmd : ServiceCommand) (t : Nat) (repo : Repo) :
    Except String GameState × Repo :=
  match cmd with
  | .join gameId player => serviceStep repo gameId (fun g => joinGame g player t DEFAULT_RULES)
  | .propose gameId input => serviceStep repo gameId (fun g => proposeTeam g input t DEFAULT_RULES)
  | .vote gameId input => serviceStep repo gameId (fun g => submitVote g input t)
  | .questAct gameId input => serviceStep repo gameId (fun g => submitQuestAction g input t)
  | .advance gameId => serviceStep repo gameId (fun g => advancePhase g t DEFAULT_RULES)

/-- The join-code alphabet of index.ts: 32 unambiguous characters. -/
def joinCodeAlphabet : List Char :=
  "ABCDEFGHJKLMNPQRSTUVWXYZ23456789".toList

/-- One sampling attempt of `createJoinCode`: five uniformly drawn alphabet
indices, supplied by the random source `rand` (attempt number, position). -/
def attemptCode (rand : Nat → Nat → Fin 32) (i : Nat) : String :=
  String.mk ((List.range 5).map (fun j => joinCodeAlphabet.getD (rand i j).val 'A'))

/-- The rejection-sampling loop body of `createJoinCode` of index.ts,
structured on remaining fuel (the loop runs at most 100 iterations). -/
def createJoinCodeGo (existing : String → Bool) (rand : Nat → Nat → Fin 32) :
    Nat → Nat → Except String String
  | _, 0 => .error "Unable to create unique join code"
  | i, fuel + 1 =>
    let code := attemptCode rand i
    if existing code then createJoinCodeGo existing rand (i + 1) fuel else .ok code

/-- `createJoinCode` of index.ts: bounded rejection sampling against the
`existing` code set, hard failure after 100 attempts. -/
def createJoinCode (existing : String → Bool) (rand : Nat → Nat → Fin 32) :
    Except String String :=
  createJoinCodeGo existing rand 0 100

/-- `keyForPlayer` of index.ts. -/
def keyForPlayer (gameId : String) (playerId : String) : String :=
  gameId ++ ":" ++ playerId

/-- `keyForAction` of index.ts. -/
def keyForAction (sessionToken : String) (actionId : String) : String :=
  sessionToken ++ ":" ++ actionId

/-- `fingerprintPayload` of index.ts; the payload stands for the already
JSON-stringified normalized payload. -/
def fingerprintPayload (event : String) (payload : String) : String :=
  event ++ ":" ++ payload

structure ProcessedAction where
  fingerprint : String
  processedAt : Nat
deriving DecidableEq, Repr

/-- The `processedActions` idempotency cache of index.ts. -/
abbrev ProcessedActions := List (String × ProcessedAction)

/-- `withIdempotency` of index.ts.  The wrapped `execute()` closure is
embedded as a fallible transition on an abstract server state `σ`; a
returned error is the thrown exception, and in that case neither the cache
nor the server state of the caller changes. -/
def withIdempotency {σ : Type} (cache : ProcessedActions) (st : σ)
    (sessionToken : String) (event : String) (actionId : Option String)
    (payload : String) (execute : σ → Except String σ) (t : Nat) :
    Except String (ProcessedActions × σ) :=
  match actionId with
  | none =>
    match execute st with
    | .error e => .error e
    | .ok st' => .ok (cache, st')
  | some aid =>
    let key := keyForAction sessionToken aid
    let fingerprint := fingerprintPayload event payload
    match alistGet cache key with
    | some existing =>
      if existing.fingerprint ≠ fingerprint then
        .error "Conflicting payload for re-used actionId"
      else
        .ok (cache, st)
    | none =>
      match execute st with
      | .error e => .error e
      | .ok st' =>
        .ok (alistSet cache key { fingerprint := fingerprint, processedAt := t }, st')

/-- `SessionRecord` of index.ts. -/
structure SessionRecord where
  token : String
  gameId : String
  joinCode : String
  playerId : String
deriving DecidableEq, Repr

abbrev Sessions := List (String × SessionRecord)

/-- The `disconnectedAt` liveness map of index.ts, keyed by
`keyForPlayer`. -/
abbrev DisconnectedAt := List (String × Nat)

/-- `setPlayerConnected` of index.ts: flips one player's connected flag,
saves, and maintains the `disconnectedAt` bookkeeping.  Throws before any
write when the game or the player is missing. -/
def setPlayerConnected (repo : Repo) (disc : DisconnectedAt) (gameId : String)
    (playerId : String) (connected : Bool) (t : Nat) :
    Except String (GameState × Repo × DisconnectedAt) :=
  match repoGetById repo gameId with
  | none => .error "Game not found"
  | some game =>
    if (game.players.find? (fun candidate => candidate.id == playerId)).isNone then
      .error "Player not found for game"
    else
      let nextGame : GameState :=
        { game with
          players := game.players.map (fun candidate =>
            if candidate.id == playerId then { candidate with connected := connected } else candidate)
          updatedAt := t }
      let repo' := repoSave repo nextGame
      let playerKey := keyForPlayer gameId playerId
      let disc' := if connected then alistErase disc playerKey else alistSet disc playerKey t
      .ok (nextGame, repo', disc')

/-- `executeRejoin` of index.ts, restricted to its game-relevant effect:
resolve the session and mark the underlying player connected.  (Clearing
the pending disconnect timer and building the wire response views are
connection bookkeeping and projection only.) -/
def executeRejoin (sessions : Sessions) (repo : Repo) (disc : DisconnectedAt)
    (sessionToken : String) (t : Nat) :
    Except String (GameState × Repo × DisconnectedAt) :=
  match alistGet sessions sessionToken with
  | none => .error "Session not found"
  | some session =>
    setPlayerConnected repo disc session.gameId session.playerId true t

/-- The players with no recorded vote (`missing` in
`autoResolvePendingPhases` of index.ts). -/
def missingVoters (game : GameState) : List Player :=
  game.players.filter (fun player => (alistGet game.votes player.id).isNone)

/-- The `timedOut` check of the voting branch of
`autoResolvePendingPhases`. -/
def voteTimedOut (game : GameState) (t : Nat) : Bool :=
  match game.voteWindowEndsAt with
  | some deadline => decide (deadline < t)
  | none => false

/-- The `staleDisconnectedMissing` check of the voting branch of
`autoResolvePendingPhases`: EVERY missing voter has a truthy
`disconnectedAt` entry at least the 12s grace period old. -/
def staleDisconnectedMissing (game : GameState) (disc : DisconnectedAt) (t : Nat) : Bool :=
  (missingVoters game).all (fun player =>
    match alistGet disc (keyForPlayer game.id player.id) with
    | some at0 => !(at0 == 0) && decide (12000 ≤ t - at0)
    | none => false)

/-- The reject-defaulting loop of the voting branch of
`autoResolvePendingPhases`: fold the missing list over the freshly read
state, writing a `reject` vote and a new timestamp per iteration. -/
def applyRejectDefaults (cur : GameState) (missing : List Player) (t : Nat) : GameState :=
  missing.foldl
    (fun acc player => { acc with votes := alistSet acc.votes player.id .reject, updatedAt := t })
    cur

/-- The per-game voting branch of `autoResolvePendingPhases` of index.ts,
for one snapshot `game` taken from `repository.list()`.  The surrounding
`try/catch` swallows throws but keeps all repository writes already made, so
each fallible read is modelled by returning the repository accumulated so
far.  Broadcasts are I/O and carry no state. -/
def sweepVotingGame (repo : Repo) (game : GameState) (disc : DisconnectedAt) (t : Nat) : Repo :=
  if game.phase = .voting then
    let missing := missingVoters game
    let repo1 :=
      if (voteTimedOut game t || staleDisconnectedMissing game disc t) && decide (0 < missing.length) then
        match repoGetById repo game.id with
        | none => repo
        | some cur => repoSave repo (applyRejectDefaults cur missing t)
      else repo
    match repoGetById repo1 game.id with
    | none => repo1
    | some latestGame =>
      if latestGame.votes.length = latestGame.players.length then
        (applyService (.advance game.id) t repo1).2
      else repo1
  else repo

/-- Number of successful quests recorded so far (the `successfulQuests`
count of `hasTeamWon`). -/
def successCount (game : GameState) : Nat :=
  (game.questResults.filter (fun result => result.succeeds)).length

/-- Number of failed quests recorded so far (the `failedQuests` count of
`hasTeamWon`). -/
def failedQuestCount (game : GameState) : Nat :=
  (game.questResults.filter (fun result => !result.succeeds)).length

/-- The winner/endgame invariant: outside `endgame` no win condition has
fired and there is no winner; in `endgame` the resistance wins exactly on
three successful quests, and the spies win exactly when an adversary
trigger (three failed quests, five failed proposals, or round past 5)
fired before the third success. -/
def WinnerInvariant (game : GameState) : Prop :=
  (game.phase ≠ .endgame →
    game.winner = none ∧ successCount game < 3 ∧ failedQuestCount game < 3 ∧
    game.failedProposalCount < 5 ∧ game.round ≤ 5) ∧
  (game.phase = .endgame →
    (game.winner = some .resistance ↔ 3 ≤ successCount game) ∧
    (game.winner = some .spy ↔
      successCount game < 3 ∧
        (3 ≤ failedQuestCount game ∨ 5 ≤ game.failedProposalCount ∨ 5 < game.round)))

/-- Game states reachable through the five state-machine operations plus
`createGame`, as dispatched by the service layer (engine defaults), with
arbitrary wall-clock instants. -/
inductive Reachable : GameState → Prop
  | create (gid : String) (host : GameHostInput) (t : Nat) :
      Reachable (createGame gid host t)
  | join {g g' : GameState} (player : JoinPlayerInput) (t : Nat) :
      Reachable g → joinGame g player t DEFAULT_RULES = .ok g' → Reachable g'
  | propose {g g' : GameState} (input : ProposeTeamInput) (t : Nat) :
      Reachable g → proposeTeam g input t DEFAULT_RULES = .ok g' → Reachable g'
  | vote {g g' : GameState} (input : VoteInput) (t : Nat) :
      Reachable g → submitVote g input t = .ok g' → Reachable g'
  | questAct {g g' : GameState} (input : QuestActionInput) (t : Nat) :
      Reachable g → submitQuestAction g input t = .ok g' → Reachable g'
  | advance {g g' : GameState} (t : Nat) :
      Reachable g → advancePhase g t DEFAULT_RULES = .ok g' → Reachable g'

/-- Rewrite every player's role pointwise, leaving all other data alone;
used to state that the public projection carries no role information. -/
def mapRoles (game : GameState) (f : Player → PlayerRole) : GameState :=
  { game with players := game.players.map (fun p => { p with role := f p }) }

/-- A six-player game taken through the lobby start and the
role-assignment step of `advancePhase`, exactly as the host-driven flow
does it. -/
def startedSixPlayerGame : Except String GameState := do
  let g0 := createGame "game1" { id := "host", name := "Host" } 0
  let g1 ← joinGame g0 { id := "p2", name := "P2" } 0 DEFAULT_RULES
  let g2 ← joinGame g1 { id := "p3", name := "P3" } 0 DEFAULT_RULES
  let g3 ← joinGame g2 { id := "p4", name := "P4" } 0 DEFAULT_RULES
  let g4 ← joinGame g3 { id := "p5", name := "P5" } 0 DEFAULT_RULES
  let g5 ← joinGame g4 { id := "p6", name := "P6" } 0 DEFAULT_RULES
  let g6 ← advancePhase g5 0 DEFAULT_RULES
  advancePhase g6 0 DEFAULT_RULES

/-- A five-player voting-phase game in which p1-p3 voted approve and p4,
p5 have not voted. -/
def sweepDemoGame : GameState where
  id := "g1"
  phase := .voting
  players :=
    [{ id := "p1", name := "P1", role := .unassigned, seat := 1, connected := true },
     { id := "p2", name := "P2", role := .unassigned, seat := 2, connected := true },
     { id := "p3", name := "P3", role := .unassigned, seat := 3, connected := true },
     { id := "p4", name := "P4", role := .unassigned, seat := 4, connected := false },
     { id := "p5", name := "P5", role := .unassigned, seat := 5, connected := true }]
  hostId := "p1"
  round := 1
  turn := 1
  leaderSeat := 1
  proposedTeam := ["p1", "p2"]
  votes := [("p1", .approve), ("p2", .approve), ("p3", .approve)]
  questActions := []
  voteWindowEndsAt := some 100000
  questWindowEndsAt := none
  failedProposalCount := 0
  questResults := []
  winner := none
  createdAt := 0
  updatedAt := 0

def sweepDemoRepo : Repo := [("g1", sweepDemoGame)]

/-- Liveness map with only p4 disconnected (at t=1): p5 is a connected
non-voter. -/
def sweepDemoDiscOne : DisconnectedAt := [(keyForPlayer "g1" "p4", 1)]

/-- Liveness map with both non-voters p4 and p5 disconnected at t=1. -/
def sweepDemoDiscBoth : DisconnectedAt :=
  [(keyForPlayer "g1" "p4", 1), (keyForPlayer "g1" "p5", 1)]

/-- A quest-phase game whose two-member team has fully submitted, with one
`fail` card. -/
def questDemoGame : GameState where
  id := "g2"
  phase := .quest
  players :=
    [{ id := "p1", name := "P1", role := .unassigned, seat := 1, connected := true },
     { id := "p2", name := "P2", role := .unassigned, seat := 2, connected := true },
     { id := "p3", name := "P3", role := .unassigned, seat := 3, connected := true },
     { id := "p4", name := "P4", role := .unassigned, seat := 4, connected := true },
     { id := "p5", name := "P5", role := .unassigned, seat := 5, connected := true }]
  hostId := "p1"
  round := 1
  turn := 2
  leaderSeat := 1
  proposedTeam := ["p1", "p2"]
  votes := [("p1", .approve), ("p2", .approve), ("p3", .approve), ("p4", .reject), ("p5", .reject)]
  questActions := [("p1", .success), ("p2", .fail)]
  voteWindowEndsAt := none
  questWindowEndsAt := some 100000
  failedProposalCount := 0
  questResults := []
  winner := none
  createdAt := 0
  updatedAt := 0

/-- A three-player game with two spies and one resistance member, used to
exercise the projections. -/
def privacyDemoGame : GameState where
  id := "g3"
  phase := .team_proposal
  players :=
    [{ id := "s1", name := "SpyOne", role := .spy, seat := 1, connected := true },
     { id := "r1", name := "ResOne", role := .resistance, seat := 2, connected := true },
     { id := "s2", name := "SpyTwo", role := .spy, seat := 3, connected := true }]
  hostId := "s1"
  round := 1
  turn := 1
  leaderSeat := 1
  proposedTeam := []
  votes := []
  questActions := []
  voteWindowEndsAt := none
  questWindowEndsAt := none
  failedProposalCount := 0
  questResults := []
  winner := none
  createdAt := 0
  updatedAt := 0

/-- A two-player lobby with p2 marked disconnected, for the rejoin frame
property. -/
def rejoinDemoGame : GameState where
  id := "g4"
  phase := .lobby
  players :=
    [{ id := "h1", name := "Host", role := .unassigned, seat := 1, connected := true },
     { id := "p2", name := "P2", role := .unassigned, seat := 2, connected := false }]
  hostId := "h1"
  round := 1
  turn := 1
  leaderSeat := 1
  proposedTeam := []
  votes := []
  questActions := []
  voteWindowEndsAt := none
  questWindowEndsAt := none
  failedProposalCount := 0
  questResults := []
  winner := none
  createdAt := 0
  updatedAt := 0

def rejoinDemoRepo : Repo := [("g4", rejoinDemoGame)]

def rejoinDemoSessions : Sessions :=
  [("tok-p2", { token := "tok-p2", gameId := "g4", joinCode := "AB12C", playerId := "p2" })]

def rejoinDemoDisc : DisconnectedAt := [(keyForPlayer "g4" "p2", 500)]

/-- Unfolding lemma: reading a cons cell. -/
theorem alistGet_cons {α : Type} (e : String × α) (l : List (String × α)) (k : String) :
    alistGet (e :: l) k = if e.1 = k then some e.2 else alistGet l k := by
  by_cases h : e.1 = k
  · simp [alistGet, List.find?_cons_of_pos, h]
  · simp [alistGet, List.find?_cons_of_neg, h]

/-- Unfolding lemma: writing over a matching head. -/
theorem alistSet_cons_pos {α : Type} {e : String × α} {l : List (String × α)} {k : String}
    (v : α) (he : e.1 = k) : alistSet (e :: l) k v = (k, v) :: l := by
  simp [alistSet, he]

/-- Unfolding lemma: writing past a non-matching head. -/
theorem alistSet_cons_neg {α : Type} {e : String × α} {l : List (String × α)} {k : String}
    (v : α) (he : ¬ e.1 = k) : alistSet (e :: l) k v = e :: alistSet l k v := by
  simp [alistSet, he]

/-- Reading back a just-written key returns the new value; other keys are
untouched. -/
theorem alistGet_alistSet {α : Type} (l : List (String × α)) (k k' : String) (v : α) :
    alistGet (alistSet l k v) k' = if k' = k then some v else alistGet l k' := by
  induction l with
  | nil =>
    show alistGet [(k, v)] k' = _
    rw [alistGet_cons]
    by_cases h : k' = k
    · simp [h]
    · rw [if_neg (fun hh : k = k' => h hh.symm), if_neg h]
  | cons e rest ih =>
    by_cases he : e.1 = k
    · rw [alistSet_cons_pos v he, alistGet_cons]
      by_cases h : k' = k
      · simp [h]
      · rw [if_neg (fun hh : k = k' => h hh.symm), if_neg h, alistGet_cons,
          if_neg (fun hh : e.1 = k' => h (he.symm.trans hh).symm)]
    · rw [alistSet_cons_neg v he, alistGet_cons]
      by_cases h : e.1 = k'
      · have hk : ¬ k' = k := fun hh => he (h.trans hh)
        rw [if_pos h, if_neg hk, alistGet_cons, if_pos h]
      · rw [if_neg h, ih]
        by_cases hk : k' = k
        · simp [hk]
        · rw [if_neg hk, if_neg hk, alistGet_cons, if_neg h]


/-- A key is absent exactly when it is not among the stored keys. -/
theorem alistGet_eq_none_iff {α : Type} (l : List (String × α)) (k : String) :
    alistGet l k = none ↔ k ∉ l.map Prod.fst := by
  induction l with
  | nil => simp [alistGet]
  | cons e rest ih =>
    rw [alistGet_cons]
    by_cases h : e.1 = k
    · simp [h]
    · rw [if_neg h, ih]
      simp only [List.map_cons, List.mem_cons, not_or]
      constructor
      · intro hnm
        exact ⟨fun hh => h hh.symm, hnm⟩
      · intro hp
        exact hp.2

/-- A key is present exactly when it is among the stored keys. -/
theorem alistGet_isSome_iff {α : Type} (l : List (String × α)) (k : String) :
    (alistGet l k).isSome = true ↔ k ∈ l.map Prod.fst := by
  cases ho : alistGet l k with
  | none =>
    have := (alistGet_eq_none_iff l k).1 ho
    simp [this]
  | some v =>
    have hne : ¬ alistGet l k = none := by simp [ho]
    have hmem : k ∈ l.map Prod.fst := by
      by_contra hm
      exact hne ((alistGet_eq_none_iff l k).2 hm)
    simp [hmem]

/-- Writing a fresh key grows the list by one entry. -/
theorem alistSet_length_of_none {α : Type} (l : List (String × α)) (k : String) (v : α)
    (h : alistGet l k = none) : (alistSet l k v).length = l.length + 1 := by
  induction l with
  | nil => rfl
  | cons e rest ih =>
    rw [alistGet_cons] at h
    by_cases he : e.1 = k
    · rw [if_pos he] at h
      cases h
    · rw [if_neg he] at h
      rw [alistSet_cons_neg v he]
      simp [ih h]

/-- C1: the lobby start of `advancePhase` is specified to assign exactly the
mandated spy count for 6 players (2 spies, no `unassigned` roles left), but
the engine's lobby and role_assignment branches only change the phase: a
six-player game advanced twice reaches `team_proposal` with zero spies and
all six roles still `unassigned`. -/
theorem startedSixPlayerGame_all_roles_unassigned :
    startedSixPlayerGame.map (fun g =>
      (g.phase, (g.players.filter (fun p => p.role == PlayerRole.spy)).length,
       (g.players.filter (fun p => p.role == PlayerRole.unassigned)).length,
       g.players.length)) =
      .ok (.team_proposal, 0, 6, 6) := by
  rfl

/-- C5: whenever `advancePhase` resolves a quest (quest phase, all actions
of the proposed team present), the appended `QuestResolution` is the record
built from the submitted actions, and it succeeds exactly when its
`failCount` is zero, regardless of team size. -/
theorem advancePhase_quest_succeeds_iff_failCount_zero
    (game : GameState) (t : Nat)
    (hphase : game.phase = .quest)
    (hall : game.questActions.length = game.proposedTeam.length) :
    ∃ g', advancePhase game t DEFAULT_RULES = .ok g' ∧
      g'.questResults = game.questResults ++ [questResolutionOf game] ∧
      ((questResolutionOf game).succeeds = true ↔ (questResolutionOf game).failCount = 0) := by
  unfold advancePhase
  rw [hphase]
  simp only [hall, ne_eq, not_true_eq_false, if_false, ite_false]
  split_ifs with h1 h2
  · exact ⟨_, rfl, by simp [withTimestamp, questIntermediate], by simp [questResolutionOf]⟩
  · exact ⟨_, rfl, by simp [withTimestamp, questIntermediate], by simp [questResolutionOf]⟩
  · exact ⟨_, rfl, by simp [withTimestamp, questIntermediate], by simp [questResolutionOf]⟩

/-- C5 witness: the two-member quest of `questDemoGame` with one `fail`
card resolves to a failed mission appended to the history. -/
theorem advancePhase_quest_succeeds_iff_failCount_zero_witness :
    ∃ g', advancePhase questDemoGame 5 DEFAULT_RULES = .ok g' ∧
      g'.questResults = questDemoGame.questResults ++ [questResolutionOf questDemoGame] ∧
      ((questResolutionOf questDemoGame).succeeds = true ↔
        (questResolutionOf questDemoGame).failCount = 0) :=
  advancePhase_quest_succeeds_iff_failCount_zero questDemoGame 5 (by rfl) (by rfl)

/-- Any `serviceStep` leaves the repository untouched on a thrown
transition and writes exactly the successful next state otherwise. -/
theorem serviceStep_repo (repo : Repo) (gameId : String)
    (transition : GameState → Except String GameState) :
    (∀ e, (serviceStep repo gameId transition).1 = .error e →
      (serviceStep repo gameId transition).2 = repo) ∧
    (∀ g', (serviceStep repo gameId transition).1 = .ok g' →
      (serviceStep repo gameId transition).2 = repoSave repo g') := by
  unfold serviceStep
  cases hreq : getRequiredGame repo gameId with
  | error e => simp
  | ok game =>
    cases htr : transition game with
    | error e => simp [htr]
    | ok nextState => simp [htr]

/-- C7: every service-layer state-machine operation is atomic: when the
engine transition (or the game lookup) fails, the repository is unchanged;
the repository is written exactly on a successful transition, with the new
state. -/
theorem applyService_atomic (cmd : ServiceCommand) (t : Nat) (repo : Repo) :
    (∀ e, (applyService cmd t repo).1 = .error e → (applyService cmd t repo).2 = repo) ∧
    (∀ g', (applyService cmd t repo).1 = .ok g' →
      (applyService cmd t repo).2 = repoSave repo g') := by
  cases cmd <;> exact serviceStep_repo _ _ _

/-- C7 witness: a `joinGame` command against an unknown game id fails and
leaves the empty repository empty. -/
theorem applyService_atomic_witness :
    (applyService (.join "nope" { id := "p9", name := "P9" }) 0 ([] : Repo)).2 = ([] : Repo) :=
  (applyService_atomic (.join "nope" { id := "p9", name := "P9" }) 0 []).1
    "Game was not found" (by rfl)

/-- C2: a command with an action id applies exactly once: a fresh id with a
successful execution records the fingerprint; a retry with the same id and
payload is a silent no-op returning the recorded state (no second
transition, whatever its own execute would do); a retry with the same id
but a different payload fingerprint fails with the conflicting-retry error
and performs no mutation. -/
theorem withIdempotency_retry_semantics {σ : Type} (cache : ProcessedActions) (st st1 : σ)
    (sessionToken event aid payload : String) (execute : σ → Except String σ) (t : Nat)
    (hfresh : alistGet cache (keyForAction sessionToken aid) = none)
    (hexec : execute st = .ok st1) :
    withIdempotency cache st sessionToken event (some aid) payload execute t =
      .ok (alistSet cache (keyForAction sessionToken aid)
            { fingerprint := fingerprintPayload event payload, processedAt := t }, st1) ∧
    (∀ (execute2 : σ → Except String σ) (t2 : Nat),
      withIdempotency
          (alistSet cache (keyForAction sessionToken aid)
            { fingerprint := fingerprintPayload event payload, processedAt := t })
          st1 sessionToken event (some aid) payload execute2 t2 =
        .ok (alistSet cache (keyForAction sessionToken aid)
              { fingerprint := fingerprintPayload event payload, processedAt := t }, st1)) ∧
    (∀ (payload2 : String) (execute2 : σ → Except String σ) (t2 : Nat),
      fingerprintPayload event payload2 ≠ fingerprintPayload event payload →
      withIdempotency
          (alistSet cache (keyForAction sessionToken aid)
            { fingerprint := fingerprintPayload event payload, processedAt := t })
          st1 sessionToken event (some aid) payload2 execute2 t2 =
        .error "Conflicting payload for re-used actionId") := by
  refine ⟨?_, ?_, ?_⟩
  · simp [withIdempotency, hfresh, hexec]
  · intro execute2 t2
    simp [withIdempotency, alistGet_alistSet]
  · intro payload2 execute2 t2 hne
    simp [withIdempotency, alistGet_alistSet, hne.symm]

/-- C2 witness: a concrete counter state, applied through a fresh action
id, retried with the same and with a different payload. -/
theorem withIdempotency_retry_semantics_witness :
    withIdempotency ([] : ProcessedActions) (0 : Nat) "tok" "ev" (some "a1") "p"
        (fun n => .ok (n + 1)) 7 =
      .ok (alistSet [] (keyForAction "tok" "a1")
            { fingerprint := fingerprintPayload "ev" "p", processedAt := 7 }, 1) ∧
    (∀ (execute2 : Nat → Except String Nat) (t2 : Nat),
      withIdempotency
          (alistSet [] (keyForAction "tok" "a1")
            { fingerprint := fingerprintPayload "ev" "p", processedAt := 7 })
          1 "tok" "ev" (some "a1") "p" execute2 t2 =
        .ok (alistSet [] (keyForAction "tok" "a1")
              { fingerprint := fingerprintPayload "ev" "p", processedAt := 7 }, 1)) ∧
    (∀ (payload2 : String) (execute2 : Nat → Except String Nat) (t2 : Nat),
      fingerprintPayload "ev" payload2 ≠ fingerprintPayload "ev" "p" →
      withIdempotency
          (alistSet [] (keyForAction "tok" "a1")
            { fingerprint := fingerprintPayload "ev" "p", processedAt := 7 })
          1 "tok" "ev" (some "a1") payload2 execute2 t2 =
        .error "Conflicting payload for re-used actionId") :=
  withIdempotency_retry_semantics [] 0 1 "tok" "ev" "a1" "p" (fun n => .ok (n + 1)) 7
    (by rfl) (by rfl)

/-- C10: a failed first execution under an action id creates no idempotency
record (the error propagates with the cache untouched), so a retry against
the same cache executes the command again and only then records; commands
without an action id are executed and never recorded or deduplicated. -/
theorem withIdempotency_failure_no_record {σ : Type} (cache : ProcessedActions) (st : σ)
    (sessionToken event aid payload : String) (execute : σ → Except String σ) (t : Nat)
    (e : String)
    (hfresh : alistGet cache (keyForAction sessionToken aid) = none)
    (hexec : execute st = .error e) :
    withIdempotency cache st sessionToken event (some aid) payload execute t = .error e ∧
    (∀ (execute2 : σ → Except String σ) (st2 : σ) (t2 : Nat), execute2 st = .ok st2 →
      withIdempotency cache st sessionToken event (some aid) payload execute2 t2 =
        .ok (alistSet cache (keyForAction sessionToken aid)
              { fingerprint := fingerprintPayload event payload, processedAt := t2 }, st2)) ∧
    (∀ (cache2 : ProcessedActions) (st0 : σ) (execute3 : σ → Except String σ) (st3 : σ)
        (t3 : Nat), execute3 st0 = .ok st3 →
      withIdempotency cache2 st0 sessionToken event none payload execute3 t3 =
        .ok (cache2, st3)) := by
  refine ⟨?_, ?_, ?_⟩
  · simp [withIdempotency, hfresh, hexec]
  · intro execute2 st2 t2 h2
    simp [withIdempotency, hfresh, h2]
  · intro cache2 st0 execute3 st3 t3 h3
    simp [withIdempotency, h3]

/-- C10 witness: a first attempt that throws leaves the cache empty, the
retry executes and records, and an id-less command is never recorded. -/
theorem withIdempotency_failure_no_record_witness :
    withIdempotency ([] : ProcessedActions) (0 : Nat) "tok" "ev" (some "a1") "p"
        (fun _ => .error "boom") 7 = .error "boom" ∧
    (∀ (execute2 : Nat → Except String Nat) (st2 : Nat) (t2 : Nat), execute2 0 = .ok st2 →
      withIdempotency ([] : ProcessedActions) 0 "tok" "ev" (some "a1") "p" execute2 t2 =
        .ok (alistSet [] (keyForAction "tok" "a1")
              { fingerprint := fingerprintPayload "ev" "p", processedAt := t2 }, st2)) ∧
    (∀ (cache2 : ProcessedActions) (st0 : Nat) (execute3 : Nat → Except String Nat) (st3 : Nat)
        (t3 : Nat), execute3 st0 = .ok st3 →
      withIdempotency cache2 st0 "tok" "ev" none "p" execute3 t3 = .ok (cache2, st3)) :=
  withIdempotency_failure_no_record [] 0 "tok" "ev" "a1" "p" (fun _ => .error "boom") 7 "boom"
    (by rfl) (by rfl)

/-- Every sampled join code has exactly five characters. -/
theorem attemptCode_length (rand : Nat → Nat → Fin 32) (i : Nat) :
    (attemptCode rand i).length = 5 := by
  unfold attemptCode
  simp [String.length]

/-- Every character of a sampled join code comes from the fixed
32-character alphabet. -/
theorem attemptCode_chars (rand : Nat → Nat → Fin 32) (i : Nat) :
    ∀ ch ∈ (attemptCode rand i).data, ch ∈ joinCodeAlphabet := by
  intro ch hch
  unfold attemptCode at hch
  simp only [String.data] at hch
  obtain ⟨j, hj, hger⟩ := List.mem_map.1 hch
  have hlt : (rand i j).val < joinCodeAlphabet.length := by
    have h32 : joinCodeAlphabet.length = 32 := by decide
    rw [h32]
    exact (rand i j).isLt
  rw [← hger, List.getD_eq_getElem?_getD, List.getElem?_eq_getElem hlt]
  simp only [Option.getD_some]
  exact List.getElem_mem hlt

/-- A successful bounded sampling run returns a well-formed fresh code. -/
theorem createJoinCodeGo_ok (existing : String → Bool) (rand : Nat → Nat → Fin 32) :
    ∀ (fuel i : Nat) (c : String),
    createJoinCodeGo existing rand i fuel = .ok c →
    c.length = 5 ∧ (∀ ch ∈ c.data, ch ∈ joinCodeAlphabet) ∧ existing c = false := by
  intro fuel
  induction fuel with
  | zero =>
    intro i c h
    simp [createJoinCodeGo] at h
  | succ fuel ih =>
    intro i c h
    unfold createJoinCodeGo at h
    by_cases hex : existing (attemptCode rand i)
    · simp only [hex, if_true] at h
      exact ih (i + 1) c h
    · simp only [hex, if_false] at h
      cases h
      exact ⟨attemptCode_length rand i, attemptCode_chars rand i, by simp [hex]⟩

/-- When all 100 attempts collide the loop returns the hard failure. -/
theorem createJoinCodeGo_exhaust (existing : String → Bool) (rand : Nat → Nat → Fin 32) :
    ∀ (fuel i : Nat),
    (∀ j, i ≤ j → j < i + fuel → existing (attemptCode rand j) = true) →
    createJoinCodeGo existing rand i fuel = .error "Unable to create unique join code" := by
  intro fuel
  induction fuel with
  | zero =>
    intro i _
    rfl
  | succ fuel ih =>
    intro i h
    unfold createJoinCodeGo
    have hi : existing (attemptCode rand i) = true := h i le_rfl (by omega)
    simp only [hi, if_true]
    exact ih (i + 1) (fun j hj1 hj2 => h j (by omega) (by omega))

/-- C9: join-code generation either returns a 5-character code drawn from
the fixed 32-letter alphabet that does not collide with any existing code,
or, when all 100 bounded sampling attempts collide, fails hard with the
exhaustion error; the loop is structurally bounded by 100 attempts. -/
theorem createJoinCode_spec (existing : String → Bool) (rand : Nat → Nat → Fin 32) :
    (∀ c, createJoinCode existing rand = .ok c →
      c.length = 5 ∧ (∀ ch ∈ c.data, ch ∈ joinCodeAlphabet) ∧ existing c = false) ∧
    ((∀ i, i < 100 → existing (attemptCode rand i) = true) →
      createJoinCode existing rand = .error "Unable to create unique join code") := by
  constructor
  · intro c h
    exact createJoinCodeGo_ok existing rand 100 0 c h
  · intro h
    exact createJoinCodeGo_exhaust existing rand 100 0 (fun j hj1 hj2 => h j (by omega))

/-- C9 witness: against an empty code set the constant sampler returns the
fresh code AAAAA; against a full code set generation fails hard. -/
theorem createJoinCode_spec_witness :
    ("AAAAA".length = 5 ∧ (∀ ch ∈ "AAAAA".data, ch ∈ joinCodeAlphabet) ∧
      (fun (_ : String) => false) "AAAAA" = false) ∧
    createJoinCode (fun _ => true) (fun _ _ => 0) =
      .error "Unable to create unique join code" :=
  ⟨(createJoinCode_spec (fun _ => false) (fun _ _ => 0)).1 "AAAAA" (by rfl),
   (createJoinCode_spec (fun _ => true) (fun _ _ => 0)).2 (fun i hi => rfl)⟩


/-- C6: the public projection is invariant under any rewriting of player
roles (it carries no role information, and its player shape has no role
field); a non-spy viewer's private `knownSpies` is empty; a spy viewer's
`knownSpies` is the full spy id list including the viewer; an unknown
viewer makes `toPlayerState` fail. -/
theorem projection_privacy (game : GameState) (joinCode viewerId : String) :
    (∀ f, toPublicState (mapRoles game f) joinCode = toPublicState game joinCode) ∧
    (∀ p, game.players.find? (fun c => c.id == viewerId) = some p →
      (p.role ≠ .spy →
        toPlayerState game viewerId joinCode =
          .ok { publicState := toPublicState game joinCode
                privateState := { role := p.role, knownSpies := [] } }) ∧
      (p.role = .spy →
        toPlayerState game viewerId joinCode =
          .ok { publicState := toPublicState game joinCode
                privateState :=
                  { role := p.role,
                    knownSpies :=
                      (game.players.filter (fun c => c.role == PlayerRole.spy)).map (·.id) } } ∧
        viewerId ∈ (game.players.filter (fun c => c.role == PlayerRole.spy)).map (·.id))) ∧
    (game.players.find? (fun c => c.id == viewerId) = none →
      toPlayerState game viewerId joinCode = .error "Player was not found in game") := by
  refine ⟨?_, ?_, ?_⟩
  · intro f
    simp [toPublicState, mapRoles, toPublicPlayers, List.map_map, Function.comp]
  · intro p hp
    have hmem : p ∈ game.players := List.mem_of_find?_eq_some hp
    have hid : p.id = viewerId := by
      have := List.find?_some hp
      simpa using this
    constructor
    · intro hrole
      simp [toPlayerState, hp, hrole]
    · intro hrole
      constructor
      · simp [toPlayerState, hp, hrole]
      · refine List.mem_map.2 ⟨p, ?_, hid⟩
        refine List.mem_filter.2 ⟨hmem, by simp [hrole]⟩
  · intro hnone
    simp [toPlayerState, hnone]

/-- C6 witness: in `privacyDemoGame`, the spy s1 sees both spies including
themself, the resistance member r1 sees none, a stranger fails, and wiping
all roles does not change the public projection. -/
theorem projection_privacy_witness :
    toPlayerState privacyDemoGame "s1" "AB12C" =
      .ok { publicState := toPublicState privacyDemoGame "AB12C"
            privateState := { role := .spy, knownSpies := ["s1", "s2"] } } ∧
    "s1" ∈ ((privacyDemoGame.players.filter (fun c => c.role == PlayerRole.spy)).map (·.id)) ∧
    toPlayerState privacyDemoGame "r1" "AB12C" =
      .ok { publicState := toPublicState privacyDemoGame "AB12C"
            privateState := { role := .resistance, knownSpies := [] } } ∧
    toPlayerState privacyDemoGame "ghost" "AB12C" = .error "Player was not found in game" ∧
    toPublicState (mapRoles privacyDemoGame (fun _ => .unassigned)) "AB12C" =
      toPublicState privacyDemoGame "AB12C" := by
  have hspy := (projection_privacy privacyDemoGame "AB12C" "s1").2.1
    { id := "s1", name := "SpyOne", role := .spy, seat := 1, connected := true } (by rfl)
  have hres := (projection_privacy privacyDemoGame "AB12C" "r1").2.1
    { id := "r1", name := "ResOne", role := .resistance, seat := 2, connected := true } (by rfl)
  have hghost := (projection_privacy privacyDemoGame "AB12C" "ghost").2.2 (by rfl)
  have hrolefree := (projection_privacy privacyDemoGame "AB12C" "s1").1 (fun _ => .unassigned)
  exact ⟨(hspy.2 rfl).1, (hspy.2 rfl).2, hres.1 (by simp), hghost, hrolefree⟩

/-- C8: rejoin with a valid session token marks exactly the session's
player connected, stamps `updatedAt`, saves that state, clears the player's
`disconnectedAt` entry, and changes no other game-relevant field; an
unknown token fails with the session-not-found error. -/
theorem executeRejoin_frame (sessions : Sessions) (repo : Repo) (disc : DisconnectedAt)
    (sessionToken : String) (t : Nat) :
    (∀ s game, alistGet sessions sessionToken = some s →
      repoGetById repo s.gameId = some game →
      (game.players.find? (fun c => c.id == s.playerId)).isSome = true →
      ∃ next,
        executeRejoin sessions repo disc sessionToken t =
          .ok (next, repoSave repo next, alistErase disc (keyForPlayer s.gameId s.playerId)) ∧
        next.players = game.players.map (fun c =>
          if c.id == s.playerId then { c with connected := true } else c) ∧
        next.id = game.id ∧ next.phase = game.phase ∧ next.hostId = game.hostId ∧
        next.round = game.round ∧ next.turn = game.turn ∧
        next.leaderSeat = game.leaderSeat ∧ next.proposedTeam = game.proposedTeam ∧
        next.votes = game.votes ∧ next.questActions = game.questActions ∧
        next.voteWindowEndsAt = game.voteWindowEndsAt ∧
        next.questWindowEndsAt = game.questWindowEndsAt ∧
        next.failedProposalCount = game.failedProposalCount ∧
        next.questResults = game.questResults ∧ next.winner = game.winner ∧
        next.createdAt = game.createdAt ∧ next.updatedAt = t) ∧
    (alistGet sessions sessionToken = none →
      executeRejoin sessions repo disc sessionToken t = .error "Session not found") := by
  constructor
  · intro s game hs hg hp
    obtain ⟨pl, hpl⟩ := Option.isSome_iff_exists.1 hp
    unfold executeRejoin setPlayerConnected
    simp only [hs, hg, hpl, Option.isNone_some, Bool.false_eq_true, if_false]
    exact ⟨_, rfl, rfl, rfl, rfl, rfl, rfl, rfl, rfl, rfl, rfl, rfl, rfl, rfl, rfl, rfl,
      rfl, rfl, rfl⟩
  · intro hn
    simp [executeRejoin, hn]

/-- C8 witness: p2 rejoining `rejoinDemoGame` through its session token
flips only its connected flag, and an unknown token fails. -/
theorem executeRejoin_frame_witness :
    (∃ next,
      executeRejoin rejoinDemoSessions rejoinDemoRepo rejoinDemoDisc "tok-p2" 900 =
        .ok (next, repoSave rejoinDemoRepo next, alistErase rejoinDemoDisc (keyForPlayer "g4" "p2")) ∧
      next.players = rejoinDemoGame.players.map (fun c =>
        if c.id == "p2" then { c with connected := true } else c) ∧
      next.id = rejoinDemoGame.id ∧ next.phase = rejoinDemoGame.phase ∧
      next.hostId = rejoinDemoGame.hostId ∧
      next.round = rejoinDemoGame.round ∧ next.turn = rejoinDemoGame.turn ∧
      next.leaderSeat = rejoinDemoGame.leaderSeat ∧
      next.proposedTeam = rejoinDemoGame.proposedTeam ∧
      next.votes = rejoinDemoGame.votes ∧ next.questActions = rejoinDemoGame.questActions ∧
      next.voteWindowEndsAt = rejoinDemoGame.voteWindowEndsAt ∧
      next.questWindowEndsAt = rejoinDemoGame.questWindowEndsAt ∧
      next.failedProposalCount = rejoinDemoGame.failedProposalCount ∧
      next.questResults = rejoinDemoGame.questResults ∧ next.winner = rejoinDemoGame.winner ∧
      next.createdAt = rejoinDemoGame.createdAt ∧ next.updatedAt = 900) ∧
    executeRejoin rejoinDemoSessions rejoinDemoRepo rejoinDemoDisc "tok-zz" 900 =
      .error "Session not found" :=
  ⟨(executeRejoin_frame rejoinDemoSessions rejoinDemoRepo rejoinDemoDisc "tok-p2" 900).1
      { token := "tok-p2", gameId := "g4", joinCode := "AB12C", playerId := "p2" }
      rejoinDemoGame (by rfl) (by rfl) (by rfl),
   (executeRejoin_frame rejoinDemoSessions rejoinDemoRepo rejoinDemoDisc "tok-zz" 900).2
      (by rfl)⟩


/-- Unfolding: defaulting over an empty missing list is the identity. -/
theorem applyRejectDefaults_nil (cur : GameState) (t : Nat) :
    applyRejectDefaults cur [] t = cur := rfl

/-- Unfolding: one defaulting step. -/
theorem applyRejectDefaults_cons (cur : GameState) (p : Player) (rest : List Player) (t : Nat) :
    applyRejectDefaults cur (p :: rest) t =
      applyRejectDefaults
        { cur with votes := alistSet cur.votes p.id .reject, updatedAt := t } rest t := rfl

/-- Defaulting rejects never changes the game id. -/
theorem applyRejectDefaults_id (missing : List Player) (cur : GameState) (t : Nat) :
    (applyRejectDefaults cur missing t).id = cur.id := by
  induction missing generalizing cur with
  | nil => rfl
  | cons p rest ih =>
    rw [applyRejectDefaults_cons]
    exact ih _

/-- Defaulting rejects never changes the player list. -/
theorem applyRejectDefaults_players (missing : List Player) (cur : GameState) (t : Nat) :
    (applyRejectDefaults cur missing t).players = cur.players := by
  induction missing generalizing cur with
  | nil => rfl
  | cons p rest ih =>
    rw [applyRejectDefaults_cons]
    exact ih _

/-- Every player of the missing list (or one whose reject is already
recorded) ends with a reject vote recorded. -/
theorem applyRejectDefaults_votes_of_mem (missing : List Player) (cur : GameState) (t : Nat)
    (p : Player)
    (h : p.id ∈ missing.map Player.id ∨ alistGet cur.votes p.id = some .reject) :
    alistGet (applyRejectDefaults cur missing t).votes p.id = some .reject := by
  induction missing generalizing cur with
  | nil =>
    rw [applyRejectDefaults_nil]
    rcases h with h | h
    · simp at h
    · exact h
  | cons q rest ih =>
    rw [applyRejectDefaults_cons]
    apply ih
    rcases h with h | h
    · rw [List.map_cons, List.mem_cons] at h
      rcases h with h1 | h1
      · refine Or.inr ?_
        rw [alistGet_alistSet, if_pos h1]
      · exact Or.inl h1
    · refine Or.inr ?_
      rw [alistGet_alistSet]
      by_cases hq : p.id = q.id
      · rw [if_pos hq]
      · rw [if_neg hq]
        exact h

/-- Votes of players whose id is outside the missing list are untouched. -/
theorem applyRejectDefaults_votes_of_not_mem (missing : List Player) (cur : GameState)
    (t : Nat) (p : Player) (h : p.id ∉ missing.map Player.id) :
    alistGet (applyRejectDefaults cur missing t).votes p.id = alistGet cur.votes p.id := by
  induction missing generalizing cur with
  | nil => rfl
  | cons q rest ih =>
    rw [applyRejectDefaults_cons]
    have h1 : ¬ p.id = q.id := fun hh => h (by simp [hh])
    have h2 : p.id ∉ rest.map Player.id := fun hh => h (by simp [hh])
    rw [ih _ h2]
    show alistGet (alistSet cur.votes q.id .reject) p.id = alistGet cur.votes p.id
    rw [alistGet_alistSet, if_neg h1]

/-- Defaulting pairwise-distinct fresh keys grows the vote list by the
number of missing players. -/
theorem applyRejectDefaults_votes_length (missing : List Player) (cur : GameState) (t : Nat)
    (hnd : (missing.map Player.id).Nodup)
    (habs : ∀ p ∈ missing, alistGet cur.votes p.id = none) :
    (applyRejectDefaults cur missing t).votes.length = cur.votes.length + missing.length := by
  induction missing generalizing cur with
  | nil => simp [applyRejectDefaults_nil]
  | cons q rest ih =>
    rw [applyRejectDefaults_cons]
    have hq : alistGet cur.votes q.id = none := habs q (by simp)
    rw [List.map_cons, List.nodup_cons] at hnd
    have habs2 : ∀ p ∈ rest, alistGet (alistSet cur.votes q.id .reject) p.id = none := by
      intro p hp
      rw [alistGet_alistSet, if_neg ?hne]
      case hne =>
        intro hh
        exact hnd.1 (hh ▸ List.mem_map_of_mem Player.id hp)
      exact habs p (by simp [hp])
    rw [ih _ hnd.2 habs2]
    show (alistSet cur.votes q.id VoteChoice.reject).length + rest.length = _
    rw [alistSet_length_of_none cur.votes q.id VoteChoice.reject hq]
    simp only [List.length_cons]
    omega

/-- countP of a disjoint disjunction splits into a sum. -/
theorem countP_or_of_disjoint {α : Type} (l : List α) (p q : α → Bool)
    (h : ∀ a ∈ l, ¬(p a = true ∧ q a = true)) :
    l.countP (fun a => p a || q a) = l.countP p + l.countP q := by
  induction l with
  | nil => simp
  | cons a rest ih =>
    rw [List.countP_cons, List.countP_cons, List.countP_cons,
      ih (fun b hb => h b (by simp [hb]))]
    cases hp : p a with
    | true =>
      have hq : q a = false := by
        cases hqa : q a
        · rfl
        · exact absurd ⟨hp, hqa⟩ (h a (by simp))
      simp [hp, hq]
      omega
    | false =>
      cases hq : q a
      · simp [hp, hq]
      · simp [hp, hq]
        omega

/-- Counting, inside a duplicate-free id list, the members of a
duplicate-free key list contained in it yields the key count. -/
theorem countP_mem_eq_length (ids keys : List String)
    (hk : keys.Nodup) (hsub : ∀ x ∈ keys, x ∈ ids) (hid : ids.Nodup) :
    ids.countP (fun i => decide (i ∈ keys)) = keys.length := by
  induction keys with
  | nil => simp
  | cons k ks ih =>
    rw [List.nodup_cons] at hk
    have step : ids.countP (fun i => decide (i ∈ k :: ks)) =
        ids.countP (fun i => (i == k) || decide (i ∈ ks)) := by
      apply List.countP_congr
      intro x _
      by_cases h1 : x = k <;> by_cases h2 : x ∈ ks <;> simp [h1, h2]
    rw [step, countP_or_of_disjoint _ _ _ ?disj]
    case disj =>
      rintro a _ ⟨h1, h2⟩
      have ha : a = k := by simpa using h1
      exact hk.1 (ha ▸ (by simpa using h2))
    have hcount : ids.countP (fun i => i == k) = 1 := by
      have hone := List.count_eq_one_of_mem hid (hsub k (by simp))
      simpa [List.count_eq_countP] using hone
    rw [hcount, ih hk.2 (fun x hx => hsub x (by simp [hx]))]
    simp only [List.length_cons]
    omega

/-- In a well-formed voting state the stored vote count equals the number
of players with a recorded vote. -/
theorem votes_length_eq_countP (g : GameState)
    (hkn : (g.votes.map Prod.fst).Nodup)
    (hks : ∀ k ∈ g.votes.map Prod.fst, k ∈ g.players.map Player.id)
    (hpid : (g.players.map Player.id).Nodup) :
    g.players.countP (fun p => (alistGet g.votes p.id).isSome) = g.votes.length := by
  have step1 : g.players.countP (fun p => (alistGet g.votes p.id).isSome) =
      g.players.countP (fun p => decide (p.id ∈ g.votes.map Prod.fst)) := by
    apply List.countP_congr
    intro p _
    simp [alistGet_isSome_iff]
  have step2 : g.players.countP (fun p => decide (p.id ∈ g.votes.map Prod.fst)) =
      (g.players.map Player.id).countP (fun i => decide (i ∈ g.votes.map Prod.fst)) := by
    rw [List.countP_map]
    rfl
  rw [step1, step2, countP_mem_eq_length _ _ hkn hks hpid, List.length_map]

/-- In a well-formed voting state the player count splits into voters plus
missing voters. -/
theorem players_length_split (g : GameState)
    (hkn : (g.votes.map Prod.fst).Nodup)
    (hks : ∀ k ∈ g.votes.map Prod.fst, k ∈ g.players.map Player.id)
    (hpid : (g.players.map Player.id).Nodup) :
    g.players.length = g.votes.length + (missingVoters g).length := by
  have hm : (missingVoters g).length =
      g.players.countP (fun p => (alistGet g.votes p.id).isNone) := by
    rw [missingVoters, ← List.countP_eq_length_filter]
  have hsplit : g.players.length =
      g.players.countP (fun p => (alistGet g.votes p.id).isSome) +
        g.players.countP (fun p => (alistGet g.votes p.id).isNone) := by
    rw [List.length_eq_countP_add_countP (fun p => (alistGet g.votes p.id).isSome)]
    congr 1
    apply List.countP_congr
    intro p _
    cases alistGet g.votes p.id <;> simp
  rw [hsplit, votes_length_eq_countP g hkn hks hpid, hm]


/-- C4 counterexample: in `sweepDemoGame` the non-voter p4 has been
disconnected continuously for 19999ms (past the 12s grace period), yet
because the other non-voter p5 is still connected and the vote deadline is
open, the sweep leaves the repository — and p4's missing vote — completely
unchanged, contradicting the claim that every such non-voter is defaulted
to reject. -/
theorem sweepVoting_stale_nonvoter_not_defaulted :
    sweepDemoGame.phase = .voting ∧
    alistGet sweepDemoGame.votes "p4" = none ∧
    alistGet sweepDemoDiscOne (keyForPlayer sweepDemoGame.id "p4") = some 1 ∧
    20000 - 1 ≥ 12000 ∧
    voteTimedOut sweepDemoGame 20000 = false ∧
    sweepVotingGame sweepDemoRepo sweepDemoGame sweepDemoDiscOne 20000 = sweepDemoRepo := by
  refine ⟨rfl, rfl, rfl, by omega, rfl, ?_⟩
  rfl

/-- C4 amended: on a sweep over a voting-phase game, when the vote deadline
has passed or when every non-voter is disconnected past the 12s grace
period, every non-voter is defaulted to reject (voters keep their votes);
the defaulted state then has a vote from every player, and the sweep runs
`advancePhase` on it, storing the advanced state (or the defaulted state if
the advance throws). -/
theorem sweepVoting_defaults_and_advances (repo : Repo) (g : GameState)
    (disc : DisconnectedAt) (t : Nat)
    (hphase : g.phase = .voting)
    (hrepo : repoGetById repo g.id = some g)
    (hcond : voteTimedOut g t = true ∨ staleDisconnectedMissing g disc t = true)
    (hmiss : missingVoters g ≠ [])
    (hpid : (g.players.map Player.id).Nodup)
    (hkn : (g.votes.map Prod.fst).Nodup)
    (hks : ∀ k ∈ g.votes.map Prod.fst, k ∈ g.players.map Player.id) :
    (∀ p ∈ missingVoters g,
      alistGet (applyRejectDefaults g (missingVoters g) t).votes p.id = some .reject) ∧
    (∀ p ∈ g.players, (alistGet g.votes p.id).isSome = true →
      alistGet (applyRejectDefaults g (missingVoters g) t).votes p.id =
        alistGet g.votes p.id) ∧
    (applyRejectDefaults g (missingVoters g) t).votes.length = g.players.length ∧
    sweepVotingGame repo g disc t =
      (match advancePhase (applyRejectDefaults g (missingVoters g) t) t DEFAULT_RULES with
       | .ok g2 => repoSave (repoSave repo (applyRejectDefaults g (missingVoters g) t)) g2
       | .error _ => repoSave repo (applyRejectDefaults g (missingVoters g) t)) := by
  have hnd : ((missingVoters g).map Player.id).Nodup := by
    have hsub : List.Sublist ((missingVoters g).map Player.id) (g.players.map Player.id) :=
      (List.filter_sublist g.players).map Player.id
    exact hpid.sublist hsub
  have habs : ∀ p ∈ missingVoters g, alistGet g.votes p.id = none := by
    intro p hp
    have hmem := (List.mem_filter.1 hp).2
    simpa [Option.isNone_iff_eq_none] using hmem
  have hlen3 : (applyRejectDefaults g (missingVoters g) t).votes.length = g.players.length := by
    rw [applyRejectDefaults_votes_length (missingVoters g) g t hnd habs,
      players_length_split g hkn hks hpid]
  refine ⟨?_, ?_, hlen3, ?_⟩
  · intro p hp
    exact applyRejectDefaults_votes_of_mem _ _ _ _ (Or.inl (List.mem_map_of_mem Player.id hp))
  · intro p _ hvoted
    apply applyRejectDefaults_votes_of_not_mem
    intro hmem
    obtain ⟨q, hq, hqid⟩ := List.mem_map.1 hmem
    have hqn := habs q hq
    rw [hqid] at hqn
    rw [hqn] at hvoted
    cases hvoted
  · have hcondb : (voteTimedOut g t || staleDisconnectedMissing g disc t) = true := by
      rcases hcond with h | h <;> simp [h]
    have hdec : decide (0 < (missingVoters g).length) = true :=
      decide_eq_true (List.length_pos.2 hmiss)
    have hid1 : (applyRejectDefaults g (missingVoters g) t).id = g.id :=
      applyRejectDefaults_id _ _ _
    have hlook : repoGetById (repoSave repo (applyRejectDefaults g (missingVoters g) t)) g.id =
        some (applyRejectDefaults g (missingVoters g) t) := by
      unfold repoGetById repoSave
      rw [hid1, alistGet_alistSet]
      simp
    have hleneq : (applyRejectDefaults g (missingVoters g) t).votes.length =
        (applyRejectDefaults g (missingVoters g) t).players.length := by
      rw [applyRejectDefaults_players, hlen3]
    unfold sweepVotingGame
    simp only [hphase, hcondb, hdec, Bool.and_self, if_true, hrepo, hlook, hleneq, if_pos]
    cases hadv : advancePhase (applyRejectDefaults g (missingVoters g) t) t DEFAULT_RULES with
    | ok g2 => simp [applyService, serviceStep, getRequiredGame, hlook, hadv]
    | error e => simp [applyService, serviceStep, getRequiredGame, hlook, hadv]

/-- C4 amended witness: with both non-voters p4 and p5 stale-disconnected,
the sweep defaults both to reject and advances the phase on the defaulted
game. -/
theorem sweepVoting_defaults_and_advances_witness :
    (∀ p ∈ missingVoters sweepDemoGame,
      alistGet (applyRejectDefaults sweepDemoGame (missingVoters sweepDemoGame) 20000).votes
        p.id = some .reject) ∧
    (∀ p ∈ sweepDemoGame.players, (alistGet sweepDemoGame.votes p.id).isSome = true →
      alistGet (applyRejectDefaults sweepDemoGame (missingVoters sweepDemoGame) 20000).votes
          p.id = alistGet sweepDemoGame.votes p.id) ∧
    (applyRejectDefaults sweepDemoGame (missingVoters sweepDemoGame) 20000).votes.length =
      sweepDemoGame.players.length ∧
    sweepVotingGame sweepDemoRepo sweepDemoGame sweepDemoDiscBoth 20000 =
      (match advancePhase
          (applyRejectDefaults sweepDemoGame (missingVoters sweepDemoGame) 20000)
          20000 DEFAULT_RULES with
       | .ok g2 =>
         repoSave
           (repoSave sweepDemoRepo
             (applyRejectDefaults sweepDemoGame (missingVoters sweepDemoGame) 20000)) g2
       | .error _ =>
         repoSave sweepDemoRepo
           (applyRejectDefaults sweepDemoGame (missingVoters sweepDemoGame) 20000)) :=
  sweepVoting_defaults_and_advances sweepDemoRepo sweepDemoGame sweepDemoDiscBoth 20000
    (by rfl) (by rfl) (Or.inr (by rfl)) (by decide) (by decide) (by decide) (by decide)


/-- A state in a non-endgame phase with no winner and all win triggers
still open satisfies the winner invariant. -/
theorem winnerInvariant_of_safe {g' : GameState}
    (hphase : g'.phase ≠ .endgame)
    (hw : g'.winner = none) (hs : successCount g' < 3) (hfq : failedQuestCount g' < 3)
    (hf : g'.failedProposalCount < 5) (hr : g'.round ≤ 5) :
    WinnerInvariant g' :=
  ⟨fun _ => ⟨hw, hs, hfq, hf, hr⟩, fun h => absurd h hphase⟩

/-- An endgame state with the two winner equivalences satisfies the winner
invariant. -/
theorem winnerInvariant_of_endgame {g' : GameState}
    (hphase : g'.phase = .endgame)
    (h : (g'.winner = some .resistance ↔ 3 ≤ successCount g') ∧
      (g'.winner = some .spy ↔
        successCount g' < 3 ∧
          (3 ≤ failedQuestCount g' ∨ 5 ≤ g'.failedProposalCount ∨ 5 < g'.round))) :
    WinnerInvariant g' :=
  ⟨fun hn => absurd hphase hn, fun _ => h⟩

/-- `hasTeamWon .resistance` is the three-successes trigger. -/
theorem hasTeamWon_resistance_iff (g : GameState) :
    hasTeamWon g .resistance = true ↔ 3 ≤ successCount g := by
  simp [hasTeamWon, successCount]

/-- `hasTeamWon .spy` is the three-failures trigger. -/
theorem hasTeamWon_spy_iff (g : GameState) :
    hasTeamWon g .spy = true ↔ 3 ≤ failedQuestCount g := by
  simp [hasTeamWon, failedQuestCount]

/-- A fresh game satisfies the winner invariant. -/
theorem winnerInvariant_createGame (gid : String) (host : GameHostInput) (t : Nat) :
    WinnerInvariant (createGame gid host t) := by
  refine winnerInvariant_of_safe ?_ rfl ?_ ?_ ?_ ?_ <;>
    simp [createGame, successCount, failedQuestCount]

/-- `joinGame` preserves the winner invariant. -/
theorem winnerInvariant_joinGame {g g' : GameState} (p : JoinPlayerInput) (t : Nat)
    (hinv : WinnerInvariant g) (h : joinGame g p t DEFAULT_RULES = .ok g') :
    WinnerInvariant g' := by
  by_cases hph : g.phase = .lobby
  · unfold joinGame at h
    rw [if_neg (fun hh => hh hph)] at h
    split_ifs at h with h2 h3
    rw [Except.ok.injEq] at h
    subst h
    have hn := hinv.1 (by rw [hph]; simp)
    exact winnerInvariant_of_safe (by simp [withTimestamp, hph])
      (by simpa [withTimestamp] using hn.1)
      (by simpa [withTimestamp, successCount] using hn.2.1)
      (by simpa [withTimestamp, failedQuestCount] using hn.2.2.1)
      (by simpa [withTimestamp] using hn.2.2.2.1)
      (by simpa [withTimestamp] using hn.2.2.2.2)
  · unfold joinGame at h
    rw [if_pos hph] at h
    exact Except.noConfusion h

/-- `proposeTeam` preserves the winner invariant. -/
theorem winnerInvariant_proposeTeam {g g' : GameState} (input : ProposeTeamInput) (t : Nat)
    (hinv : WinnerInvariant g) (h : proposeTeam g input t DEFAULT_RULES = .ok g') :
    WinnerInvariant g' := by
  by_cases hph : g.phase = .team_proposal
  · unfold proposeTeam at h
    rw [if_neg (fun hh => hh hph)] at h
    repeat' split at h
    all_goals try contradiction
    rw [Except.ok.injEq] at h
    subst h
    have hn := hinv.1 (by rw [hph]; simp)
    exact winnerInvariant_of_safe (by simp [withTimestamp])
      (by simpa [withTimestamp] using hn.1)
      (by simpa [withTimestamp, successCount] using hn.2.1)
      (by simpa [withTimestamp, failedQuestCount] using hn.2.2.1)
      (by simpa [withTimestamp] using hn.2.2.2.1)
      (by simpa [withTimestamp] using hn.2.2.2.2)
  · unfold proposeTeam at h
    rw [if_pos hph] at h
    exact Except.noConfusion h

/-- `submitVote` preserves the winner invariant. -/
theorem winnerInvariant_submitVote {g g' : GameState} (input : VoteInput) (t : Nat)
    (hinv : WinnerInvariant g) (h : submitVote g input t = .ok g') :
    WinnerInvariant g' := by
  by_cases hph : g.phase = .voting
  · unfold submitVote at h
    rw [if_neg (fun hh => hh hph)] at h
    repeat' split at h
    all_goals try contradiction
    rw [Except.ok.injEq] at h
    subst h
    have hn := hinv.1 (by rw [hph]; simp)
    exact winnerInvariant_of_safe (by simp [withTimestamp, hph])
      (by simpa [withTimestamp] using hn.1)
      (by simpa [withTimestamp, successCount] using hn.2.1)
      (by simpa [withTimestamp, failedQuestCount] using hn.2.2.1)
      (by simpa [withTimestamp] using hn.2.2.2.1)
      (by simpa [withTimestamp] using hn.2.2.2.2)
  · unfold submitVote at h
    rw [if_pos hph] at h
    exact Except.noConfusion h

/-- `submitQuestAction` preserves the winner invariant. -/
theorem winnerInvariant_submitQuestAction {g g' : GameState} (input : QuestActionInput)
    (t : Nat) (hinv : WinnerInvariant g) (h : submitQuestAction g input t = .ok g') :
    WinnerInvariant g' := by
  by_cases hph : g.phase = .quest
  · unfold submitQuestAction at h
    rw [if_neg (fun hh => hh hph)] at h
    repeat' split at h
    all_goals try contradiction
    rw [Except.ok.injEq] at h
    subst h
    have hn := hinv.1 (by rw [hph]; simp)
    exact winnerInvariant_of_safe (by simp [withTimestamp, hph])
      (by simpa [withTimestamp] using hn.1)
      (by simpa [withTimestamp, successCount] using hn.2.1)
      (by simpa [withTimestamp, failedQuestCount] using hn.2.2.1)
      (by simpa [withTimestamp] using hn.2.2.2.1)
      (by simpa [withTimestamp] using hn.2.2.2.2)
  · unfold submitQuestAction at h
    rw [if_pos hph] at h
    exact Except.noConfusion h

/-- `advancePhase` preserves the winner invariant: whichever win trigger
fires first fixes the winner and moves the phase to `endgame`. -/
theorem winnerInvariant_advancePhase {g g' : GameState} (t : Nat)
    (hinv : WinnerInvariant g) (h : advancePhase g t DEFAULT_RULES = .ok g') :
    WinnerInvariant g' := by
  unfold advancePhase at h
  cases hph : g.phase with
  | lobby =>
    rw [hph] at h
    dsimp only at h
    split_ifs at h with h1
    rw [Except.ok.injEq] at h
    subst h
    have hn := hinv.1 (by rw [hph]; simp)
    exact winnerInvariant_of_safe (by simp [withTimestamp])
      (by simpa [withTimestamp] using hn.1)
      (by simpa [withTimestamp, successCount] using hn.2.1)
      (by simpa [withTimestamp, failedQuestCount] using hn.2.2.1)
      (by simpa [withTimestamp] using hn.2.2.2.1)
      (by simpa [withTimestamp] using hn.2.2.2.2)
  | role_assignment =>
    rw [hph] at h
    dsimp only at h
    rw [Except.ok.injEq] at h
    subst h
    have hn := hinv.1 (by rw [hph]; simp)
    exact winnerInvariant_of_safe (by simp [withTimestamp])
      (by simpa [withTimestamp] using hn.1)
      (by simpa [withTimestamp, successCount] using hn.2.1)
      (by simpa [withTimestamp, failedQuestCount] using hn.2.2.1)
      (by simpa [withTimestamp] using hn.2.2.2.1)
      (by simpa [withTimestamp] using hn.2.2.2.2)
  | team_proposal =>
    rw [hph] at h
    dsimp only at h
    exact Except.noConfusion h
  | endgame =>
    rw [hph] at h
    dsimp only at h
    exact Except.noConfusion h
  | voting =>
    rw [hph] at h
    dsimp only at h
    have hn := hinv.1 (by rw [hph]; simp)
    split_ifs at h with h1 h2 h3
    · rw [Except.ok.injEq] at h
      subst h
      exact winnerInvariant_of_safe (by simp [withTimestamp])
        (by simpa [withTimestamp] using hn.1)
        (by simpa [withTimestamp, successCount] using hn.2.1)
        (by simpa [withTimestamp, failedQuestCount] using hn.2.2.1)
        (by simpa [withTimestamp] using hn.2.2.2.1)
        (by simpa [withTimestamp] using hn.2.2.2.2)
    · rw [Except.ok.injEq] at h
      subst h
      apply winnerInvariant_of_endgame (by simp [withTimestamp])
      constructor
      · refine iff_of_false (by simp [withTimestamp]) ?_
        have hs := hn.2.1
        simp only [withTimestamp, successCount] at *
        omega
      · refine iff_of_true (by simp [withTimestamp]) ?_
        refine ⟨?_, Or.inr (Or.inl ?_)⟩
        · have hs := hn.2.1
          simp only [withTimestamp, successCount] at *
          omega
        · simpa [withTimestamp] using h3
    · rw [Except.ok.injEq] at h
      subst h
      refine winnerInvariant_of_safe (by simp [withTimestamp])
        (by simpa [withTimestamp] using hn.1)
        (by simpa [withTimestamp, successCount] using hn.2.1)
        (by simpa [withTimestamp, failedQuestCount] using hn.2.2.1)
        ?_ (by simpa [withTimestamp] using hn.2.2.2.2)
      simp only [withTimestamp]
      omega
  | quest =>
    rw [hph] at h
    dsimp only at h
    split_ifs at h with h1 h2 h3
    · rw [Except.ok.injEq] at h
      subst h
      apply winnerInvariant_of_endgame (by simp [withTimestamp])
      have hres : 3 ≤ successCount (questIntermediate g t) :=
        (hasTeamWon_resistance_iff _).1 h2
      constructor
      · refine iff_of_true (by simp [withTimestamp]) ?_
        simpa [withTimestamp, successCount] using hres
      · refine iff_of_false (by simp [withTimestamp]) ?_
        rintro ⟨hlt, _⟩
        simp only [withTimestamp, successCount] at hlt hres
        omega
    · rw [Except.ok.injEq] at h
      subst h
      apply winnerInvariant_of_endgame (by simp [withTimestamp])
      have hnres : ¬ 3 ≤ successCount (questIntermediate g t) :=
        fun hh => h2 ((hasTeamWon_resistance_iff _).2 hh)
      constructor
      · refine iff_of_false (by simp [withTimestamp]) ?_
        intro hh
        apply hnres
        simpa [withTimestamp, successCount] using hh
      · refine iff_of_true (by simp [withTimestamp]) ?_
        refine ⟨?_, ?_⟩
        · simp only [withTimestamp, successCount] at *
          omega
        · rcases Bool.or_eq_true_iff.1 h3 with hspy | hround
          · refine Or.inl ?_
            have hfq := (hasTeamWon_spy_iff _).1 hspy
            simpa [withTimestamp, failedQuestCount] using hfq
          · refine Or.inr (Or.inr ?_)
            have hrd := of_decide_eq_true hround
            simpa [withTimestamp] using hrd
    · rw [Except.ok.injEq] at h
      subst h
      have hnres : ¬ 3 ≤ successCount (questIntermediate g t) :=
        fun hh => h2 ((hasTeamWon_resistance_iff _).2 hh)
      have hor := h3
      rw [Bool.or_eq_true_iff] at hor
      push_neg at hor
      obtain ⟨hnspy, hnround⟩ := hor
      have hnfq : ¬ 3 ≤ failedQuestCount (questIntermediate g t) :=
        fun hh => hnspy ((hasTeamWon_spy_iff _).2 hh)
      have hnr : ¬ 5 < (questIntermediate g t).round := by
        intro hh
        exact hnround (decide_eq_true hh)
      refine winnerInvariant_of_safe ?_ ?_ (by omega) (by omega) ?_ (by omega)
      · simp [questIntermediate, withTimestamp]
      · simp only [questIntermediate, withTimestamp]
        exact (hinv.1 (by rw [hph]; simp)).1
      · simp [questIntermediate, withTimestamp]

/-- C3: in every game state reachable through the state-machine operations,
the winner is `resistance` exactly when three successful missions have
occurred (in `endgame`), the winner is `spy` exactly when an adversary
trigger (three failed missions, five failed proposals, or round past 5)
fired before the third success, and outside `endgame` no trigger has fired
and there is no winner. -/
theorem reachable_winner_invariant (g : GameState) (h : Reachable g) : WinnerInvariant g := by
  induction h with
  | create gid host t => exact winnerInvariant_createGame gid host t
  | join p t _ hok ih => exact winnerInvariant_joinGame p t ih hok
  | propose input t _ hok ih => exact winnerInvariant_proposeTeam input t ih hok
  | vote input t _ hok ih => exact winnerInvariant_submitVote input t ih hok
  | questAct input t _ hok ih => exact winnerInvariant_submitQuestAction input t ih hok
  | advance t _ hok ih => exact winnerInvariant_advancePhase t ih hok

/-- C3 witness: the invariant at a concrete freshly created game. -/
theorem reachable_winner_invariant_witness :
    WinnerInvariant (createGame "g0" { id := "h1", name := "Host" } 0) :=
  reachable_winner_invariant _ (Reachable.create "g0" { id := "h1", name := "Host" } 0)

end Avalon
